import Mathlib

/-!
# Verification of the audio-chunking transcription pipeline

Shallow embedding of `src/streamlit-app-chunking.py`.

Modelling conventions:

* An exported WAV file on disk is identified by the time slice of the source
  audio it holds and the encoding parameters it was exported with
  (`SegFile`).  Its byte size on disk is given by an abstract `SizeModel`
  (the code can only observe sizes via `os.path.getsize`; the actual size
  is determined by the encoder, which is outside the program).
* Python float arithmetic (`int((max_api_size * 0.8) / bytes_per_ms)`,
  `math.ceil(duration_ms / segment_size_ms)`) is modelled by the exact
  rational value, folded into natural-number division:
  `int((B * 0.8) / (fsz / d)) = (4 * B * d) / (5 * fsz)` and
  `ceil(d / s) = (d + s - 1) / s` (all `/` are `Nat` divisions).
* A raised-and-caught Python exception is modelled as `Option.none` on the
  sub-computation that raises it.
-/

/-- Constant from the source: `MAX_SEGMENT_SIZE_MB = 20`. -/
def MAX_SEGMENT_SIZE_MB : Nat := 20

/-- Constant from the source: `BYTES_PER_MB = 1024 * 1024`. -/
def BYTES_PER_MB : Nat := 1024 * 1024

/-- Constant from the source: `MAX_API_SIZE_BYTES = 24 * 1024 * 1024`. -/
def MAX_API_SIZE_BYTES : Nat := 24 * 1024 * 1024

/-- An exported WAV file: the half-open slice `[startMs, endMs)` of the
source audio it contains, and the channel count / frame rate it was
exported with. -/
structure SegFile where
  startMs : Nat
  endMs : Nat
  channels : Nat
  frameRate : Nat
deriving DecidableEq

/-- Abstract export-size oracle: byte size that exporting the slice
`[startMs, endMs)` at the given channel count and frame rate produces on
disk.  The program never computes this; it only reads it back with
`os.path.getsize`. -/
structure SizeModel where
  size : Nat → Nat → Nat → Nat → Nat

/-- `os.path.getsize` of an exported file. -/
def fileSizeB (m : SizeModel) (f : SegFile) : Nat :=
  m.size f.startMs f.endMs f.channels f.frameRate

/-- `ensure_max_file_size(file_path, max_size_bytes=MAX_API_SIZE_BYTES)`
(source lines 143-176): if the file is within `max_size_bytes`, return it
unchanged; otherwise downmix to mono and drop the frame rate to 16 kHz and
re-export in place; if the re-export is still over the limit, drop the frame
rate to 8 kHz and re-export, returning the file without a further check. -/
def ensure_max_file_size (m : SizeModel) (f : SegFile)
    (maxSize : Nat := MAX_API_SIZE_BYTES) : SegFile :=
  if fileSizeB m f ≤ maxSize then f
  else if fileSizeB m { f with channels := 1, frameRate := 16000 } ≤ maxSize then
    { f with channels := 1, frameRate := 16000 }
  else
    { f with channels := 1, frameRate := 8000 }

/-- The export performed for every slice in `split_audio_file`
(source lines 223-229 and 241-252): `set_channels(1).set_frame_rate(16000)`
then `export`, i.e. every first export of a slice is mono at 16 kHz. -/
def exportSegment (startMs endMs : Nat) : SegFile :=
  { startMs := startMs, endMs := endMs, channels := 1, frameRate := 16000 }

/-- Exact model of `math.ceil(a / b)` for naturals. -/
def ceilDivN (a b : Nat) : Nat :=
  (a + b - 1) / b

/-- The planned segment duration of `split_audio_file` (source lines
197-210): `segment_size_ms = int((max_api_size * 0.8) / bytes_per_ms)` with
`bytes_per_ms = file_size / duration_ms`, clamped above by
`max_segment_ms = 3 * 60 * 1000` and below by `min_segment_ms = 30 * 1000`.
The float expression is modelled by its exact rational value
`(4 * max_api_size * d) / (5 * fsz)` (see module docstring). -/
def segmentSizeMs (fsz d : Nat) : Nat :=
  max (min ((4 * MAX_API_SIZE_BYTES * d) / (5 * fsz)) (3 * 60 * 1000)) (30 * 1000)

/-- The start/end pairs computed by the segmentation loop of
`split_audio_file` (source lines 219-221): `start_ms = i * segment_size_ms`,
`end_ms = min((i + 1) * segment_size_ms, duration_ms)`, for
`i in range(ceil(duration_ms / segment_size_ms))`. -/
def plannedRanges (d s : Nat) : List (Nat × Nat) :=
  (List.range (ceilDivN d s)).map (fun i => (i * s, min ((i + 1) * s) d))

/-- Per-range body of the main loop of `split_audio_file` (source lines
219-262): export the slice at mono/16 kHz, run `ensure_max_file_size`; if
the result is still over `max_api_size`, warn and split the slice once at
`mid_point = (end_ms - start_ms) // 2`, exporting and `ensure`-ing each
half and appending both without any further size check; otherwise append
the single artifact. -/
def splitSegment (m : SizeModel) (d s i : Nat) : List SegFile :=
  let startMs := i * s
  let endMs := min ((i + 1) * s) d
  let seg1 := ensure_max_file_size m (exportSegment startMs endMs) MAX_API_SIZE_BYTES
  if MAX_API_SIZE_BYTES < fileSizeB m seg1 then
    let mid := (endMs - startMs) / 2
    [ensure_max_file_size m (exportSegment startMs (startMs + mid)) MAX_API_SIZE_BYTES,
     ensure_max_file_size m (exportSegment (startMs + mid) endMs) MAX_API_SIZE_BYTES]
  else
    [seg1]

/-- Main path of `split_audio_file` (source lines 190-264).  `none` models
the `ZeroDivisionError` raised by `bytes_per_ms = file_size / duration_ms`
when `duration_ms == 0`, and by `(max_api_size * 0.8) / bytes_per_ms` when
`file_size == 0`; the exception is caught by the enclosing `except` and
control falls through to the fallback path. -/
def splitMain (m : SizeModel) (fsz d : Nat) : Option (List SegFile) :=
  if d = 0 ∨ fsz = 0 then none
  else
    some ((List.range (ceilDivN d (segmentSizeMs fsz d))).flatMap
      (splitSegment m d (segmentSizeMs fsz d)))

/-- Fallback path of `split_audio_file` (source lines 269-300): fixed
1-minute slices, each exported at mono/16 kHz; a slice over `max_api_size`
is re-exported at 8 kHz and appended without a further check. -/
def splitFallback (m : SizeModel) (d : Nat) : List SegFile :=
  (List.range (ceilDivN d (60 * 1000))).map (fun i =>
    let seg := exportSegment (i * (60 * 1000)) (min ((i + 1) * (60 * 1000)) d)
    if MAX_API_SIZE_BYTES < fileSizeB m seg then { seg with frameRate := 8000 }
    else seg)

/-- `split_audio_file(file_path)` (source lines 178-304): the main path,
falling back to the simple 1-minute splitter when the main path raises. -/
def split_audio_file (m : SizeModel) (fsz d : Nat) : List SegFile :=
  (splitMain m fsz d).getD (splitFallback m d)

/-- The per-segment size verification the caller runs over the list
returned by `split_audio_file` just before dispatching (source lines
424-427): it warns for every segment whose size in MB exceeds 24, i.e.
whose byte size exceeds `24 * BYTES_PER_MB`.  Each artifact is paired with
the flag saying whether this warning was emitted for it. -/
def preDispatchChecked (m : SizeModel) (segs : List SegFile) : List (SegFile × Bool) :=
  segs.map (fun f => (f, decide (24 * BYTES_PER_MB < fileSizeB m f)))

/-- Outcome of one call to `client.audio.transcriptions.create`: either the
transcribed text, or a raised exception carrying its message `str(e)`. -/
inductive CallOutcome where
  | success (text : String)
  | failure (errMsg : String)
deriving DecidableEq

/-- Marker returned by `transcribe_segment` when the error message contains
`"413"` (source line 338). -/
def sizeMarker : String := "[Erro de tamanho no segmento - transcription falhou] "

/-- Marker returned by `transcribe_segment` for every other exception
(source line 341). -/
def errMarker : String := "[Erro na transcrição deste segmento] "

/-- Whether `pat` is a contiguous run at the head of `s`. -/
def strHasPre : List Char → List Char → Bool
  | [], _ => true
  | _ :: _, [] => false
  | p :: ps, c :: cs => p == c && strHasPre ps cs

/-- Whether `pat` occurs contiguously anywhere in the character list. -/
def listHasSub (pat : List Char) : List Char → Bool
  | [] => pat.isEmpty
  | c :: cs => strHasPre pat (c :: cs) || listHasSub pat cs

/-- Python's `pat in s` substring test on strings. -/
def strHasSub (s pat : String) : Bool := listHasSub pat.toList s.toList

/-- `transcribe_segment(segment_path, client, language)` (source lines
306-341): if the file is over `MAX_API_SIZE_BYTES`, warn and run
`ensure_max_file_size` on it first; then call the API on the (possibly
shrunk) file.  Every exception is caught: a message containing `"413"`
yields `sizeMarker`, any other exception yields `errMarker`.  Returns the
file actually sent and the text recorded for the segment. -/
def transcribe_segment (m : SizeModel) (f : SegFile) (o : CallOutcome) :
    SegFile × String :=
  let sent := if MAX_API_SIZE_BYTES < fileSizeB m f
    then ensure_max_file_size m f MAX_API_SIZE_BYTES else f
  (sent,
    match o with
    | CallOutcome.success t => t
    | CallOutcome.failure msg =>
        if strHasSub msg "413" then sizeMarker else errMarker)

/-- The sequential dispatch loop (source lines 431-445), recorded as the
list of per-segment texts in index order; `k` is the index of the first
segment of `segs`.  `oc i` is the outcome of the remote call for segment
`i`. -/
def dispatchFrom (m : SizeModel) (oc : Nat → CallOutcome) :
    Nat → List SegFile → List String
  | _, [] => []
  | k, f :: rest =>
      (transcribe_segment m f (oc k)).2 :: dispatchFrom m oc (k + 1) rest

/-- Texts recorded by the sequential dispatch loop, in segment order. -/
def dispatchResults (m : SizeModel) (segs : List SegFile)
    (oc : Nat → CallOutcome) : List String :=
  dispatchFrom m oc 0 segs

/-- Assembly of the final transcript (source lines 432, 439, 451):
`full_transcript += segment_transcript + " "` over the results in index
order, then `full_transcript.strip()`. -/
def assembleTranscript (rs : List String) : String :=
  (rs.foldl (fun acc r => acc ++ r ++ " ") "").trim

/-- Modelled from the spec: the source contains only the sequential
dispatch loop; the concurrent strategy of §4.4/§5 (bounded worker pool,
pre-sized result array, each result written at its originating segment
index, completion order arbitrary) is absent from `src/`.  `order` is the
completion order of the workers; each completion writes its segment's text
into the pre-sized array at its own index. -/
def concurrentResults (m : SizeModel) (segs : List SegFile)
    (oc : Nat → CallOutcome) (order : List Nat) : List String :=
  order.foldl
    (fun arr i => arr.set i ((transcribe_segment m (segs.getD i ⟨0, 0, 0, 0⟩) (oc i)).2))
    (List.replicate segs.length "")

/-- Result of one whole job: a final transcript handed to the result sink,
or an aborted job (top-level `except` handler / `st.stop()`), which
produces no transcript. -/
inductive JobResult where
  | ok (t : String)
  | failed
deriving DecidableEq

/-- The processing pipeline from the normalized WAV onwards (source lines
391-448 plus the top-level handler at 470-477).  The WAV covers
`[0, d)` and has the given channel count and frame rate.  If its size in
MB is at most `MAX_SEGMENT_SIZE_MB`, the file is `ensure`-d, a final size
check `st.stop()`s the job if it is still over `MAX_API_SIZE_BYTES`, and a
single API call is made whose exception (if any) is not caught below the
top-level handler: the job ends with no transcript.  Otherwise the file is
split and the sequential dispatch loop runs, absorbing per-segment
failures into markers. -/
def processNormalizedWav (m : SizeModel) (d ch rate : Nat)
    (oc : Nat → CallOutcome) : JobResult :=
  let wav : SegFile := { startMs := 0, endMs := d, channels := ch, frameRate := rate }
  if fileSizeB m wav ≤ MAX_SEGMENT_SIZE_MB * BYTES_PER_MB then
    let wav2 := ensure_max_file_size m wav MAX_API_SIZE_BYTES
    if MAX_API_SIZE_BYTES < fileSizeB m wav2 then JobResult.failed
    else
      match oc 0 with
      | CallOutcome.success t => JobResult.ok t.trim
      | CallOutcome.failure _ => JobResult.failed
  else
    JobResult.ok (assembleTranscript
      (dispatchResults m (split_audio_file m (fileSizeB m wav) d) oc))

/-- Size model for counterexamples: every export is 25 MiB, over the
24 MiB API budget at every quality tier. -/
def mBig : SizeModel := ⟨fun _ _ _ _ => 25 * 1024 * 1024⟩

/-- Size model for counterexamples: every export is 1000 bytes, well under
every budget. -/
def mSmall : SizeModel := ⟨fun _ _ _ _ => 1000⟩

/-! ## Arithmetic facts about the ceiling division used by the planner -/

lemma ceilDivN_pos (s d : Nat) (hs : 0 < s) (hd : 0 < d) : 0 < ceilDivN d s := by
  unfold ceilDivN
  exact Nat.lt_of_lt_of_le Nat.zero_lt_one ((Nat.one_le_div_iff hs).mpr (by omega))

lemma ceilDivN_eq_pred_div_succ (s d : Nat) (hs : 0 < s) (hd : 0 < d) :
    ceilDivN d s = (d - 1) / s + 1 := by
  unfold ceilDivN
  have h1 : d + s - 1 = (d - 1) + s := by omega
  rw [h1, Nat.add_div_right _ hs]

lemma mul_lt_of_lt_ceilDivN (s d i : Nat) (hs : 0 < s) (hi : i < ceilDivN d s) :
    i * s < d := by
  have hd : 0 < d := by
    rcases Nat.eq_zero_or_pos d with h | h
    · subst h
      have hz : ceilDivN 0 s = 0 := by
        unfold ceilDivN
        exact Nat.div_eq_of_lt (by omega)
      rw [hz] at hi
      exact absurd hi (Nat.not_lt_zero i)
    · exact h
  have h1 : (i + 1) * s ≤ ceilDivN d s * s :=
    Nat.mul_le_mul_right s (Nat.succ_le_of_lt hi)
  have h2 : ceilDivN d s * s ≤ d + s - 1 := by
    unfold ceilDivN
    exact Nat.div_mul_le_self _ _
  have h13 : (i + 1) * s ≤ d + s - 1 := le_trans h1 h2
  rw [Nat.add_mul, one_mul] at h13
  generalize i * s = X at h13 ⊢
  omega

lemma le_ceilDivN_mul (s d : Nat) (hs : 0 < s) : d ≤ ceilDivN d s * s := by
  rcases Nat.eq_zero_or_pos d with h | hd
  · simp [h]
  · rw [ceilDivN_eq_pred_div_succ s d hs hd, Nat.add_mul, one_mul]
    have h1 := Nat.div_add_mod (d - 1) s
    have h2 := Nat.mod_lt (d - 1) hs
    have h3 : (d - 1) / s * s = s * ((d - 1) / s) := Nat.mul_comm _ _
    rw [h3]
    generalize hX : s * ((d - 1) / s) = X at h1 ⊢
    generalize hr : (d - 1) % s = r at h1 h2
    omega

/-! ## The planned ranges -/

lemma plannedRanges_length (d s : Nat) :
    (plannedRanges d s).length = ceilDivN d s := by
  simp [plannedRanges]

lemma plannedRanges_getD (d s i : Nat) (hi : i < ceilDivN d s) :
    (plannedRanges d s).getD i (0, 0) = (i * s, min ((i + 1) * s) d) := by
  unfold plannedRanges
  rw [List.getD_eq_getElem?_getD, List.getElem?_map, List.getElem?_range hi]
  rfl

/-- The five partition properties of the ranges `[i*s, min((i+1)*s, d))`,
for any positive slice length `s` and positive duration `d`. -/
lemma plannedRanges_spec (d s : Nat) (hs : 0 < s) (hd : 0 < d) :
    0 < (plannedRanges d s).length ∧
    ((plannedRanges d s).getD 0 (0, 0)).1 = 0 ∧
    ((plannedRanges d s).getD ((plannedRanges d s).length - 1) (0, 0)).2 = d ∧
    (∀ i, i < (plannedRanges d s).length →
      ((plannedRanges d s).getD i (0, 0)).1 < ((plannedRanges d s).getD i (0, 0)).2) ∧
    (∀ i, i + 1 < (plannedRanges d s).length →
      ((plannedRanges d s).getD (i + 1) (0, 0)).1 =
        ((plannedRanges d s).getD i (0, 0)).2) := by
  have hc : 0 < ceilDivN d s := ceilDivN_pos s d hs hd
  rw [plannedRanges_length]
  refine ⟨hc, ?_, ?_, ?_, ?_⟩
  · rw [plannedRanges_getD d s 0 hc]
    simp
  · rw [plannedRanges_getD d s (ceilDivN d s - 1) (by omega)]
    have h1 : (ceilDivN d s - 1 + 1) * s = ceilDivN d s * s := by
      congr 1
      omega
    rw [h1]
    simp only []
    exact Nat.min_eq_right (le_ceilDivN_mul s d hs)
  · intro i hi
    rw [plannedRanges_getD d s i hi]
    simp only []
    refine Nat.lt_min.mpr ⟨?_, mul_lt_of_lt_ceilDivN s d i hs hi⟩
    rw [Nat.add_mul, one_mul]
    exact Nat.lt_add_of_pos_right hs
  · intro i hi
    rw [plannedRanges_getD d s (i + 1) hi, plannedRanges_getD d s i (by omega)]
    simp only []
    exact (Nat.min_eq_left (le_of_lt (mul_lt_of_lt_ceilDivN s d (i + 1) hs hi))).symm

lemma segmentSizeMs_pos (fsz d : Nat) : 0 < segmentSizeMs fsz d := by
  unfold segmentSizeMs
  have h : (30 : Nat) * 1000 ≤ max (min ((4 * MAX_API_SIZE_BYTES * d) / (5 * fsz)) (3 * 60 * 1000)) (30 * 1000) :=
    Nat.le_max_right _ _
  omega

/-- C2: for every audio input with positive total duration, the start/end
pairs computed in `split_audio_file` form a non-empty sequence of
strictly increasing, contiguous half-open ranges that begins at 0 and whose
last end equals the total duration, so they cover exactly
`[0, total_duration_ms)` with no gaps and no overlaps. -/
theorem c2_planned_ranges_partition (fsz d : Nat) (hd : 0 < d) :
    0 < (plannedRanges d (segmentSizeMs fsz d)).length ∧
    ((plannedRanges d (segmentSizeMs fsz d)).getD 0 (0, 0)).1 = 0 ∧
    ((plannedRanges d (segmentSizeMs fsz d)).getD
        ((plannedRanges d (segmentSizeMs fsz d)).length - 1) (0, 0)).2 = d ∧
    (∀ i, i < (plannedRanges d (segmentSizeMs fsz d)).length →
      ((plannedRanges d (segmentSizeMs fsz d)).getD i (0, 0)).1 <
        ((plannedRanges d (segmentSizeMs fsz d)).getD i (0, 0)).2) ∧
    (∀ i, i + 1 < (plannedRanges d (segmentSizeMs fsz d)).length →
      ((plannedRanges d (segmentSizeMs fsz d)).getD (i + 1) (0, 0)).1 =
        ((plannedRanges d (segmentSizeMs fsz d)).getD i (0, 0)).2) :=
  plannedRanges_spec d (segmentSizeMs fsz d) (segmentSizeMs_pos fsz d) hd

/-- Witness for C2 at a 1-minute, 1 MiB input. -/
theorem c2_planned_ranges_partition_witness :
    0 < (plannedRanges 60000 (segmentSizeMs 1048576 60000)).length ∧
    ((plannedRanges 60000 (segmentSizeMs 1048576 60000)).getD 0 (0, 0)).1 = 0 ∧
    ((plannedRanges 60000 (segmentSizeMs 1048576 60000)).getD
        ((plannedRanges 60000 (segmentSizeMs 1048576 60000)).length - 1) (0, 0)).2 = 60000 ∧
    (∀ i, i < (plannedRanges 60000 (segmentSizeMs 1048576 60000)).length →
      ((plannedRanges 60000 (segmentSizeMs 1048576 60000)).getD i (0, 0)).1 <
        ((plannedRanges 60000 (segmentSizeMs 1048576 60000)).getD i (0, 0)).2) ∧
    (∀ i, i + 1 < (plannedRanges 60000 (segmentSizeMs 1048576 60000)).length →
      ((plannedRanges 60000 (segmentSizeMs 1048576 60000)).getD (i + 1) (0, 0)).1 =
        ((plannedRanges 60000 (segmentSizeMs 1048576 60000)).getD i (0, 0)).2) :=
  c2_planned_ranges_partition 1048576 60000 (by decide)

/-- C8: a 10-minute input of 10 MiB (1 MiB per minute byte rate), under the
configured 24 MiB budget with safety factor 0.8 and the 3-minute segment
cap, yields a candidate above the cap (clamped to 3 minutes) and exactly 4
planned ranges of durations 3, 3, 3 and 1 minutes, the last clamped to the
total duration. -/
theorem c8_ten_minute_scenario :
    segmentSizeMs (10 * 1024 * 1024) 600000 = 3 * 60 * 1000 ∧
    plannedRanges 600000 (segmentSizeMs (10 * 1024 * 1024) 600000) =
      [(0, 180000), (180000, 360000), (360000, 540000), (540000, 600000)] ∧
    (plannedRanges 600000 (segmentSizeMs (10 * 1024 * 1024) 600000)).map
        (fun r => r.2 - r.1) =
      [3 * 60 * 1000, 3 * 60 * 1000, 3 * 60 * 1000, 1 * 60 * 1000] := by
  refine ⟨by decide, by decide, by decide⟩

/-! ## Shape of `ensure_max_file_size` outputs -/

/-- If the artifact returned by `ensure_max_file_size` is still over the
limit, the whole degradation ladder was exhausted: the result is the input
downmixed to mono at 8 kHz, and the 16 kHz re-export was itself over the
limit. -/
lemma ensure_over_shape (m : SizeModel) (f : SegFile) (M : Nat)
    (h : M < fileSizeB m (ensure_max_file_size m f M)) :
    ensure_max_file_size m f M = { f with channels := 1, frameRate := 8000 } ∧
    M < fileSizeB m { f with channels := 1, frameRate := 16000 } := by
  unfold ensure_max_file_size at h ⊢
  split_ifs at h ⊢ with h1 h2
  · omega
  · omega
  · exact ⟨rfl, by omega⟩

/-- `ensure_max_file_size` of a mono/16 kHz export keeps the slice, stays
mono, ends at 16 kHz or 8 kHz, and reaches 8 kHz only when the 16 kHz
export of the slice was over the limit. -/
lemma ensure_exportSegment_shape (m : SizeModel) (a b M : Nat) :
    (ensure_max_file_size m (exportSegment a b) M).startMs = a ∧
    (ensure_max_file_size m (exportSegment a b) M).endMs = b ∧
    (ensure_max_file_size m (exportSegment a b) M).channels = 1 ∧
    ((ensure_max_file_size m (exportSegment a b) M).frameRate = 16000 ∨
     (ensure_max_file_size m (exportSegment a b) M).frameRate = 8000) ∧
    ((ensure_max_file_size m (exportSegment a b) M).frameRate = 8000 →
      M < fileSizeB m (exportSegment a b)) := by
  unfold ensure_max_file_size
  split_ifs with h1 h2
  · exact ⟨rfl, rfl, rfl, Or.inl rfl, fun h => by simp [exportSegment] at h⟩
  · exact ⟨rfl, rfl, rfl, Or.inl rfl, fun h => by simp at h⟩
  · exact ⟨rfl, rfl, rfl, Or.inr rfl, fun _ => by omega⟩

/-- Any artifact released by `split_audio_file` while still over the API
budget has been fully degraded to mono at 8 kHz (on both the main and the
fallback path). -/
lemma split_over_budget_shape (m : SizeModel) (fsz d : Nat) (f : SegFile)
    (hf : f ∈ split_audio_file m fsz d)
    (hover : MAX_API_SIZE_BYTES < fileSizeB m f) :
    f.channels = 1 ∧ f.frameRate = 8000 := by
  unfold split_audio_file splitMain at hf
  by_cases hc : d = 0 ∨ fsz = 0
  · rw [if_pos hc] at hf
    simp only [Option.getD_none] at hf
    unfold splitFallback at hf
    rcases List.mem_map.mp hf with ⟨i, _hi, hfi⟩
    simp only [] at hfi
    split at hfi
    · subst hfi
      exact ⟨rfl, rfl⟩
    · subst hfi
      omega
  · rw [if_neg hc] at hf
    simp only [Option.getD_some] at hf
    rcases List.mem_flatMap.mp hf with ⟨i, _hi, hfi⟩
    simp only [splitSegment] at hfi
    split at hfi
    · simp only [List.mem_cons, List.not_mem_nil, or_false] at hfi
      rcases hfi with rfl | rfl
      · have h3 := ensure_over_shape m _ MAX_API_SIZE_BYTES hover
        rw [h3.1]
        exact ⟨rfl, rfl⟩
      · have h3 := ensure_over_shape m _ MAX_API_SIZE_BYTES hover
        rw [h3.1]
        exact ⟨rfl, rfl⟩
    · simp only [List.mem_singleton] at hfi
      subst hfi
      omega

/-- C1: every artifact in the list returned by `split_audio_file` reaches
the dispatch loop only through the caller's per-segment verification pass,
which emits a size warning for exactly the segments whose byte size
exceeds `24 * BYTES_PER_MB` — the same threshold as the hard budget
`MAX_API_SIZE_BYTES`.  Hence every dispatched artifact is within the hard
budget or carries an emitted size warning; an over-budget artifact with no
warning never reaches dispatch. -/
theorem c1_dispatched_size_or_warning (m : SizeModel) (fsz d : Nat)
    (p : SegFile × Bool)
    (hp : p ∈ preDispatchChecked m (split_audio_file m fsz d)) :
    fileSizeB m p.1 ≤ MAX_API_SIZE_BYTES ∨ p.2 = true := by
  unfold preDispatchChecked at hp
  rcases List.mem_map.mp hp with ⟨f, _hf, rfl⟩
  by_cases h : fileSizeB m f ≤ MAX_API_SIZE_BYTES
  · exact Or.inl h
  · right
    simp only [decide_eq_true_eq]
    unfold MAX_API_SIZE_BYTES at h
    unfold BYTES_PER_MB
    omega

/-- Witness for C1: an over-budget artifact produced under the
everything-is-25-MiB size model is dispatched with its warning flag set. -/
theorem c1_dispatched_size_or_warning_witness :
    fileSizeB mBig ⟨0, 90000, 1, 8000⟩ ≤ MAX_API_SIZE_BYTES ∨ (true : Bool) = true :=
  c1_dispatched_size_or_warning mBig (25 * 1024 * 1024) 300000
    (⟨0, 90000, 1, 8000⟩, true) (by decide)

/-- Counterexample to C3: under a size model where every export is 25 MiB,
`split_audio_file` bisects each over-budget segment exactly once and
appends both halves even though they are still over the 24 MiB budget:
the output contains a 90-second artifact over the budget (far above any
"few seconds" recursion floor), with no further bisection, no recursion
and no per-child warning — refuting "recursively applies the same
compliance check to each child, repeating until every piece complies or a
minimum child duration floor is reached". -/
theorem c3_single_bisection_counterexample :
    split_audio_file mBig (25 * 1024 * 1024) 300000 =
      [⟨0, 90000, 1, 8000⟩, ⟨90000, 180000, 1, 8000⟩,
       ⟨180000, 240000, 1, 8000⟩, ⟨240000, 300000, 1, 8000⟩] ∧
    MAX_API_SIZE_BYTES < fileSizeB mBig ⟨0, 90000, 1, 8000⟩ :=
  ⟨by decide, by decide⟩

/-- C3 as amended: when a segment is still over the hard budget after
quality degradation, `split_audio_file` bisects its time range once at the
midpoint into two child ranges, applies the quality degradation
(`ensure_max_file_size`) to each child, and appends both children with no
further size check: bisection is never recursive (each planned range
contributes at most two artifacts) and there is no minimum-duration floor;
any artifact released while over the budget has been fully degraded to
mono 8 kHz. -/
theorem c3_bisection_amended (m : SizeModel) (fsz d s i : Nat) (f : SegFile)
    (hf : f ∈ split_audio_file m fsz d)
    (hover : MAX_API_SIZE_BYTES < fileSizeB m f) :
    (f.channels = 1 ∧ f.frameRate = 8000) ∧ (splitSegment m d s i).length ≤ 2 := by
  refine ⟨split_over_budget_shape m fsz d f hf hover, ?_⟩
  simp only [splitSegment]
  split
  · simp
  · simp

/-- Witness for the amended C3 under the everything-is-25-MiB model. -/
theorem c3_bisection_amended_witness :
    (((⟨0, 90000, 1, 8000⟩ : SegFile).channels = 1 ∧
      (⟨0, 90000, 1, 8000⟩ : SegFile).frameRate = 8000) ∧
     (splitSegment mBig 300000 180000 0).length ≤ 2) :=
  c3_bisection_amended mBig (25 * 1024 * 1024) 300000 180000 0
    ⟨0, 90000, 1, 8000⟩ (by decide) (by decide)

/-- Counterexample to C4: under a size model where every export is 1000
bytes (so the canonical export would comfortably fit the budget), the sole
artifact returned for the planned range is the mono/16 kHz export — the
range is never exported at the canonical 44.1 kHz encoding at all,
refuting "first exports the range at the canonical encoding unchanged, and
returns that export as the sole artifact whenever its byte size is within
the hard budget". -/
theorem c4_canonical_export_counterexample :
    split_audio_file mSmall 1000 60000 = [⟨0, 60000, 1, 16000⟩] ∧
    (⟨0, 60000, 1, 16000⟩ : SegFile).frameRate ≠ 44100 :=
  ⟨by decide, by decide⟩

/-- C4 as amended: for every planned time range, the code unconditionally
downmixes to mono and resamples to 16 kHz before the first export; that
mono/16 kHz export is returned as the sole artifact whenever its byte size
is within the hard budget, and every artifact produced for the range is
mono at 16 kHz or 8 kHz (never the canonical 44.1 kHz), with 8 kHz reached
only when the 16 kHz export of that artifact's slice exceeded the budget —
i.e. degradation beyond 16 kHz is applied only on over-budget exports and
in the fixed mono-then-lower-rate order of `ensure_max_file_size`. -/
theorem c4_degraded_export_amended (m : SizeModel) (d s i : Nat) :
    (fileSizeB m (exportSegment (i * s) (min ((i + 1) * s) d)) ≤ MAX_API_SIZE_BYTES →
      splitSegment m d s i = [exportSegment (i * s) (min ((i + 1) * s) d)]) ∧
    (∀ f ∈ splitSegment m d s i,
      f.channels = 1 ∧ (f.frameRate = 16000 ∨ f.frameRate = 8000) ∧
      (f.frameRate = 8000 →
        MAX_API_SIZE_BYTES < fileSizeB m (exportSegment f.startMs f.endMs))) := by
  constructor
  · intro hin
    simp only [splitSegment]
    have he : ensure_max_file_size m (exportSegment (i * s) (min ((i + 1) * s) d))
        MAX_API_SIZE_BYTES = exportSegment (i * s) (min ((i + 1) * s) d) := by
      unfold ensure_max_file_size
      rw [if_pos hin]
    rw [he, if_neg (by omega)]
  · intro f hf
    simp only [splitSegment] at hf
    split at hf
    · simp only [List.mem_cons, List.not_mem_nil, or_false] at hf
      rcases hf with rfl | rfl
      · have h := ensure_exportSegment_shape m (i * s)
          (i * s + (min ((i + 1) * s) d - i * s) / 2) MAX_API_SIZE_BYTES
        refine ⟨h.2.2.1, h.2.2.2.1, fun h8 => ?_⟩
        rw [h.1, h.2.1]
        exact h.2.2.2.2 h8
      · have h := ensure_exportSegment_shape m
          (i * s + (min ((i + 1) * s) d - i * s) / 2) (min ((i + 1) * s) d)
          MAX_API_SIZE_BYTES
        refine ⟨h.2.2.1, h.2.2.2.1, fun h8 => ?_⟩
        rw [h.1, h.2.1]
        exact h.2.2.2.2 h8
    · simp only [List.mem_singleton] at hf
      subst hf
      have h := ensure_exportSegment_shape m (i * s) (min ((i + 1) * s) d)
        MAX_API_SIZE_BYTES
      refine ⟨h.2.2.1, h.2.2.2.1, fun h8 => ?_⟩
      rw [h.1, h.2.1]
      exact h.2.2.2.2 h8

/-- Witness for the amended C4: an in-budget range yields exactly its
mono/16 kHz export. -/
theorem c4_degraded_export_amended_witness :
    splitSegment mSmall 60000 180000 0 = [exportSegment 0 60000] :=
  (c4_degraded_export_amended mSmall 60000 180000 0).1 (by decide)

/-- Counterexample to C7: at `total_duration_ms = 0` the byte-rate
division `file_size / duration_ms` is evaluated and raises
(`splitMain = none` models the raised-and-caught `ZeroDivisionError`), and
`split_audio_file` does not fail with any `PlanningError` — no such error
exists in the code — but returns normally with an empty segment list via
the fallback path. -/
theorem c7_planning_error_counterexample :
    splitMain mSmall 1000000 0 = none ∧ split_audio_file mSmall 1000000 0 = [] :=
  ⟨by decide, by decide⟩

/-- C7 as amended: for every size model and file size, a zero total
duration makes the main planning path evaluate the byte-rate division and
raise `ZeroDivisionError` (modelled as `none`), which is caught;
`split_audio_file` then terminates normally through the fallback path with
an empty segment list, never raising a `PlanningError` (which does not
exist in the code). -/
theorem c7_zero_duration_amended (m : SizeModel) (fsz : Nat) :
    splitMain m fsz 0 = none ∧ split_audio_file m fsz 0 = [] := by
  constructor
  · unfold splitMain
    rw [if_pos (Or.inl rfl)]
  · unfold split_audio_file splitMain
    rw [if_pos (Or.inl rfl)]
    simp [splitFallback, ceilDivN]

/-! ## The sequential dispatch loop -/

lemma dispatchFrom_length (m : SizeModel) (oc : Nat → CallOutcome) :
    ∀ (segs : List SegFile) (k : Nat), (dispatchFrom m oc k segs).length = segs.length := by
  intro segs
  induction segs with
  | nil => intro k; rfl
  | cons f rest ih =>
      intro k
      simp only [dispatchFrom, List.length_cons, ih (k + 1)]

lemma dispatchFrom_getElem? (m : SizeModel) (oc : Nat → CallOutcome) :
    ∀ (segs : List SegFile) (k j : Nat),
      (dispatchFrom m oc k segs)[j]? =
        segs[j]?.map (fun f => (transcribe_segment m f (oc (k + j))).2) := by
  intro segs
  induction segs with
  | nil => intro k j; simp [dispatchFrom]
  | cons f rest ih =>
      intro k j
      cases j with
      | zero => simp [dispatchFrom]
      | succ j' =>
          simp only [dispatchFrom, List.getElem?_cons_succ]
          rw [ih (k + 1) j']
          have hk : k + 1 + j' = k + (j' + 1) := by omega
          rw [hk]

lemma dispatchResults_length (m : SizeModel) (segs : List SegFile)
    (oc : Nat → CallOutcome) : (dispatchResults m segs oc).length = segs.length :=
  dispatchFrom_length m oc segs 0

lemma dispatchResults_getElem? (m : SizeModel) (segs : List SegFile)
    (oc : Nat → CallOutcome) (j : Nat) :
    (dispatchResults m segs oc)[j]? =
      segs[j]?.map (fun f => (transcribe_segment m f (oc j)).2) := by
  unfold dispatchResults
  rw [dispatchFrom_getElem? m oc segs 0 j]
  simp

/-- C5: under sequential dispatch every per-segment remote failure is
recorded as a non-empty explicit marker at that segment's position — the
distinguishing `sizeMarker` when the error message contains `"413"`
(payload too large), the generic `errMarker` otherwise — and the loop
continues: the results list has one entry per segment no matter which
calls fail, so the job still assembles a (possibly partial) transcript. -/
theorem c5_failure_markers (m : SizeModel) (segs : List SegFile)
    (oc : Nat → CallOutcome) (i : Nat) (msg : String)
    (hi : i < segs.length) (ho : oc i = CallOutcome.failure msg) :
    (dispatchResults m segs oc).length = segs.length ∧
    (dispatchResults m segs oc)[i]? =
      some (if strHasSub msg "413" then sizeMarker else errMarker) ∧
    sizeMarker ≠ "" ∧ errMarker ≠ "" ∧ sizeMarker ≠ errMarker := by
  refine ⟨dispatchResults_length m segs oc, ?_, by decide, by decide, by decide⟩
  rw [dispatchResults_getElem? m segs oc i, List.getElem?_eq_getElem hi]
  simp [transcribe_segment, ho]

/-- Witness for C5: a 413 failure on the only segment is recorded as the
size marker. -/
theorem c5_failure_markers_witness :
    (dispatchResults mSmall [⟨0, 60000, 1, 16000⟩]
        (fun _ => CallOutcome.failure "Error code: 413 - payload too large")).length =
      ([⟨0, 60000, 1, 16000⟩] : List SegFile).length ∧
    (dispatchResults mSmall [⟨0, 60000, 1, 16000⟩]
        (fun _ => CallOutcome.failure "Error code: 413 - payload too large"))[0]? =
      some (if strHasSub "Error code: 413 - payload too large" "413"
        then sizeMarker else errMarker) ∧
    sizeMarker ≠ "" ∧ errMarker ≠ "" ∧ sizeMarker ≠ errMarker :=
  c5_failure_markers mSmall [⟨0, 60000, 1, 16000⟩]
    (fun _ => CallOutcome.failure "Error code: 413 - payload too large") 0
    "Error code: 413 - payload too large" (by decide) rfl

/-- Counterexample to C6: an `AuthenticationError` raised on segment 0 is
caught like any other exception — it is converted into the generic
per-segment failure marker and the loop still submits and records segment
1 — refuting "no further segments are submitted" and "the authentication
failure is not converted into a per-segment failure marker". -/
theorem c6_auth_fail_fast_counterexample :
    dispatchResults mSmall [⟨0, 60000, 1, 16000⟩, ⟨60000, 120000, 1, 16000⟩]
        (fun i => if i = 0
          then CallOutcome.failure "Error code: 401 - AuthenticationError: Incorrect API key provided"
          else CallOutcome.success "segundo trecho") =
      [errMarker, "segundo trecho"] ∧ errMarker ≠ "" :=
  ⟨by decide, by decide⟩

/-- C6 as amended: an authentication error is handled exactly like any
other non-413 exception: `transcribe_segment` absorbs it into the generic
failure marker at that segment's position and the sequential loop
continues, still producing one result per segment — the job is never
aborted and nothing is cancelled. -/
theorem c6_auth_as_generic_failure (m : SizeModel) (segs : List SegFile)
    (oc : Nat → CallOutcome) (i : Nat) (msg : String)
    (hi : i < segs.length) (ho : oc i = CallOutcome.failure msg)
    (h413 : strHasSub msg "413" = false) :
    (dispatchResults m segs oc).length = segs.length ∧
    (dispatchResults m segs oc)[i]? = some errMarker := by
  refine ⟨dispatchResults_length m segs oc, ?_⟩
  rw [dispatchResults_getElem? m segs oc i, List.getElem?_eq_getElem hi]
  simp [transcribe_segment, ho, h413]

/-- Witness for the amended C6: the authentication failure on segment 0 of
a two-segment job yields the generic marker and a full-length result
list. -/
theorem c6_auth_as_generic_failure_witness :
    (dispatchResults mSmall [⟨0, 60000, 1, 16000⟩, ⟨60000, 120000, 1, 16000⟩]
        (fun i => if i = 0
          then CallOutcome.failure "Error code: 401 - AuthenticationError: Incorrect API key provided"
          else CallOutcome.success "segundo trecho")).length =
      ([⟨0, 60000, 1, 16000⟩, ⟨60000, 120000, 1, 16000⟩] : List SegFile).length ∧
    (dispatchResults mSmall [⟨0, 60000, 1, 16000⟩, ⟨60000, 120000, 1, 16000⟩]
        (fun i => if i = 0
          then CallOutcome.failure "Error code: 401 - AuthenticationError: Incorrect API key provided"
          else CallOutcome.success "segundo trecho"))[0]? = some errMarker :=
  c6_auth_as_generic_failure mSmall
    [⟨0, 60000, 1, 16000⟩, ⟨60000, 120000, 1, 16000⟩]
    (fun i => if i = 0
      then CallOutcome.failure "Error code: 401 - AuthenticationError: Incorrect API key provided"
      else CallOutcome.success "segundo trecho") 0
    "Error code: 401 - AuthenticationError: Incorrect API key provided"
    (by decide) rfl (by decide)

/-! ## The concurrent result array -/

lemma foldl_set_length (g : Nat → String) :
    ∀ (order : List Nat) (init : List String),
      (order.foldl (fun arr i => arr.set i (g i)) init).length = init.length := by
  intro order
  induction order with
  | nil => intro init; rfl
  | cons i rest ih =>
      intro init
      rw [List.foldl_cons, ih, List.length_set]

lemma foldl_set_not_mem (g : Nat → String) :
    ∀ (order : List Nat) (init : List String) (j : Nat), j ∉ order →
      (order.foldl (fun arr i => arr.set i (g i)) init)[j]? = init[j]? := by
  intro order
  induction order with
  | nil => intro init j _; rfl
  | cons i rest ih =>
      intro init j hj
      rw [List.foldl_cons, ih _ j (fun h => hj (List.mem_cons_of_mem i h))]
      exact List.getElem?_set_ne (fun h => hj (by rw [← h]; exact List.mem_cons_self i rest))

lemma foldl_set_mem (g : Nat → String) :
    ∀ (order : List Nat) (init : List String) (j : Nat),
      j ∈ order → j < init.length →
      (order.foldl (fun arr i => arr.set i (g i)) init)[j]? = some (g j) := by
  intro order
  induction order with
  | nil => intro init j hj _; exact absurd hj (List.not_mem_nil j)
  | cons i rest ih =>
      intro init j hj hlen
      rw [List.foldl_cons]
      by_cases hr : j ∈ rest
      · exact ih _ j hr (by rw [List.length_set]; exact hlen)
      · have hij : j = i := by
          rcases List.mem_cons.mp hj with h | h
          · exact h
          · exact absurd h hr
        subst hij
        rw [foldl_set_not_mem g rest _ j hr]
        exact List.getElem?_set_self hlen

/-- For any completion order that is a permutation of the segment indices,
the pre-sized, index-addressed result array of the concurrent strategy
coincides with the sequential results list. -/
lemma concurrentResults_eq_dispatchResults (m : SizeModel)
    (segs : List SegFile) (oc : Nat → CallOutcome) (order : List Nat)
    (hperm : order.Perm (List.range segs.length)) :
    concurrentResults m segs oc order = dispatchResults m segs oc := by
  apply List.ext_getElem?
  intro j
  by_cases hj : j < segs.length
  · have hmem : j ∈ order := hperm.mem_iff.mpr (List.mem_range.mpr hj)
    unfold concurrentResults
    rw [foldl_set_mem _ order _ j hmem (by rw [List.length_replicate]; exact hj)]
    rw [dispatchResults_getElem? m segs oc j, List.getElem?_eq_getElem hj]
    have hgd : segs.getD j ⟨0, 0, 0, 0⟩ = segs[j] := by
      rw [List.getD_eq_getElem?_getD, List.getElem?_eq_getElem hj]
      rfl
    rw [hgd]
    rfl
  · unfold concurrentResults
    rw [List.getElem?_eq_none
          (by rw [foldl_set_length, List.length_replicate]; omega),
        List.getElem?_eq_none (by rw [dispatchResults_length]; omega)]

/-- C9: when no segment fails, the transcript assembled from the
concurrent strategy's pre-sized, index-addressed result array is identical
to the sequential strategy's transcript for every possible completion
order of the workers, because each result is written at its originating
segment index and concatenation is by ascending index. -/
theorem c9_concurrent_matches_sequential (m : SizeModel)
    (segs : List SegFile) (oc : Nat → CallOutcome) (order : List Nat)
    (hperm : order.Perm (List.range segs.length))
    (_hok : ∀ i, i < segs.length → ∃ t, oc i = CallOutcome.success t) :
    assembleTranscript (concurrentResults m segs oc order) =
      assembleTranscript (dispatchResults m segs oc) := by
  rw [concurrentResults_eq_dispatchResults m segs oc order hperm]

/-- Witness for C9: three successful segments completing in the order
2, 0, 1 assemble to the same transcript as the sequential run. -/
theorem c9_concurrent_matches_sequential_witness :
    assembleTranscript (concurrentResults mSmall
      [⟨0, 10, 1, 16000⟩, ⟨10, 20, 1, 16000⟩, ⟨20, 30, 1, 16000⟩]
      (fun i => CallOutcome.success (if i = 0 then "um" else if i = 1 then "dois" else "três"))
      [2, 0, 1]) =
    assembleTranscript (dispatchResults mSmall
      [⟨0, 10, 1, 16000⟩, ⟨10, 20, 1, 16000⟩, ⟨20, 30, 1, 16000⟩]
      (fun i => CallOutcome.success (if i = 0 then "um" else if i = 1 then "dois" else "três"))) :=
  c9_concurrent_matches_sequential mSmall
    [⟨0, 10, 1, 16000⟩, ⟨10, 20, 1, 16000⟩, ⟨20, 30, 1, 16000⟩]
    (fun i => CallOutcome.success (if i = 0 then "um" else if i = 1 then "dois" else "três"))
    [2, 0, 1] (by decide) (fun i _ => ⟨_, rfl⟩)

/-- C10: when the normalized WAV is at most `MAX_SEGMENT_SIZE_MB` (20 MiB),
the pipeline skips segmentation and the job outcome is decided by the
single remote call alone: a success yields the stripped text as the whole
transcript, and a failure propagates to the top-level handler so the job
produces no transcript at all — no failure marker is recorded, unlike the
segmented path. -/
theorem c10_fast_path_no_marker (m : SizeModel) (d ch rate : Nat)
    (oc : Nat → CallOutcome)
    (hsmall : fileSizeB m ⟨0, d, ch, rate⟩ ≤ MAX_SEGMENT_SIZE_MB * BYTES_PER_MB) :
    processNormalizedWav m d ch rate oc =
      (match oc 0 with
       | CallOutcome.success t => JobResult.ok t.trim
       | CallOutcome.failure _ => JobResult.failed) := by
  have hapi : fileSizeB m ⟨0, d, ch, rate⟩ ≤ MAX_API_SIZE_BYTES := by
    unfold MAX_SEGMENT_SIZE_MB BYTES_PER_MB at hsmall
    unfold MAX_API_SIZE_BYTES
    omega
  unfold processNormalizedWav
  rw [if_pos hsmall]
  have he : ensure_max_file_size m ⟨0, d, ch, rate⟩ MAX_API_SIZE_BYTES =
      ⟨0, d, ch, rate⟩ := by
    unfold ensure_max_file_size
    rw [if_pos hapi]
  rw [he, if_neg (by omega)]

/-- Witness for C10: a 1000-byte WAV whose single remote call fails leaves
the job with no transcript. -/
theorem c10_fast_path_no_marker_witness :
    processNormalizedWav mSmall 5000 1 44100
      (fun _ => CallOutcome.failure "erro de rede") = JobResult.failed :=
  c10_fast_path_no_marker mSmall 5000 1 44100
    (fun _ => CallOutcome.failure "erro de rede") (by decide)
